import Mathlib

/-!
Shallow embedding of `src/openmmtools/openmm_torch/repex.py` and proofs of the
spec's claims about it.

The Python module is an orchestration layer over OpenMM / openmm-ml /
openmmtools.  We embed its own logic faithfully:

* an OpenMM `Topology` is chains of residues of atoms; an atom is represented
  by its integer index (the only attribute the code reads);
* an OpenMM `System` is represented by its constraint list; a constraint's
  distance parameter is discarded by the code (`p1, p2, _ = ...`), so we keep
  only the two particle endpoints;
* Python exceptions (assert / raise) become `Except String`;
* calls into external libraries (mdtraj selection, `MLPotential`,
  `createMixedSystem`, the sampler's `from_storage` / `setup` /
  `setup_decouple`) are recorded as data: we model the arguments the wrapper
  passes, which is all the spec's claims are about.  mdtraj's
  `Topology.select("chainid == k")` is modelled by its documented behaviour:
  it returns the (positional) indices of the atoms of chain `k`, scanning
  atoms in topology order;
* keyword-argument dictionaries that the code merely stores and forwards are
  modelled as association lists `List (String × String)` with opaque values.

The filesystem interaction of `RepexConstructor.sampler` (`os.path.isfile`,
`os.remove`) is modelled by an explicit boolean "the storage file exists"
threaded through the function, which returns whether the file was deleted.
-/

deriving instance DecidableEq for Except

namespace Repex

/-- A residue of an OpenMM topology: its name and the indices of its atoms,
in the order `residue.atoms()` yields them. -/
structure Residue where
  name : String
  atoms : List Nat
deriving Repr, DecidableEq

/-- A chain of an OpenMM topology. -/
structure Chain where
  residues : List Residue
deriving Repr, DecidableEq

/-- An OpenMM topology: a sequence of chains. -/
structure Topology where
  chains : List Chain
deriving Repr, DecidableEq

/-- All residues of the topology in iteration order, as Python's
`topology.residues()` yields them (chain by chain). -/
def Topology.residues (t : Topology) : List Residue :=
  t.chains.flatMap Chain.residues

/-- Chain position of every atom, in topology iteration order: entry `p` is
the index (position) of the chain that the `p`-th atom belongs to.  mdtraj
assigns positional indices 0,1,2,... to atoms in this order. -/
def Topology.atomChainIds (t : Topology) : List Nat :=
  t.chains.enum.flatMap fun ic =>
    List.replicate (ic.2.residues.flatMap Residue.atoms).length ic.1

/-- Digit-by-digit parse of a decimal numeral, used to model mdtraj parsing
the chain id interpolated into the selection string `"chainid == ..."`. -/
def parseNatCore : List Char → Nat → Option Nat
  | [], acc => some acc
  | c :: rest, acc =>
      if c.isDigit then parseNatCore rest (acc * 10 + (c.toNat - 48)) else none

/-- Parse a non-empty decimal numeral from a string; `none` when the string
is not a numeral (mdtraj would reject the selection). -/
def parseNat (s : String) : Option Nat :=
  match s.data with
  | [] => none
  | cs => parseNatCore cs 0

/-- Model of mdtraj's `topology.select("chainid == cid")`: the positional
indices of the atoms whose chain position equals `cid`, in ascending order
(mdtraj scans atoms in topology order). -/
def mdtrajSelectChain (t : Topology) (cid : Nat) : List Nat :=
  (List.range t.atomChainIds.length).filter
    fun p => t.atomChainIds.get? p = some cid

/-- Boolean test that a list is in ascending (non-decreasing) order; this is
exactly Python's `sorted(atoms) == atoms`. -/
def isAscending : List Nat → Bool
  | [] => true
  | [_] => true
  | a :: b :: rest => a ≤ b && isAscending (b :: rest)

/-- Embedding of `get_atoms_from_resname(topology, nnpify_id, nnpify_type)`.
The `"chain"` branch delegates to mdtraj selection (the chain id is parsed
from the interpolated string); the `"resname"` branch asserts exactly one
residue carries the requested name, takes the first matching residue's atom
indices, and asserts `sorted(atoms) == atoms`; any other `nnpify_type`
raises `ValueError`. -/
def get_atoms_from_resname (topology : Topology) (nnpify_id : String)
    (nnpify_type : String) : Except String (List Nat) :=
  if nnpify_type = "chain" then
    match parseNat nnpify_id with
    | some cid => Except.ok (mdtrajSelectChain topology cid)
    | none => Except.error "mdtraj could not parse the chain selection"
  else if nnpify_type = "resname" then
    let all_resnames :=
      (topology.residues.filter fun res => res.name = nnpify_id).map Residue.name
    if all_resnames.length = 1 then
      match topology.residues.find? fun res => res.name = nnpify_id with
      | some residue =>
          let atoms := residue.atoms
          if isAscending atoms then
            Except.ok atoms
          else
            Except.error "atom indices are not in ascending order"
      | none => Except.error "unreachable: a matching residue was counted"
    else
      Except.error "did not find exactly 1 residue with the requested name"
  else
    Except.error "Either chain or resname must be set"

/-- An OpenMM system, represented by its constraint list: constraint `idx`
is the pair of particle indices returned by
`system.getConstraintParameters(idx)` (the distance parameter is unused by
the code and omitted). -/
structure OSystem where
  constraints : List (Nat × Nat)
deriving Repr, DecidableEq

/-- Embedding of `assert_no_residue_constraints(system, atoms)`: collect both
endpoints of every constraint, intersect with the atom set, and raise iff
the intersection is non-empty. -/
def assert_no_residue_constraints (system : OSystem) (atoms : List Nat) :
    Except String Unit :=
  let all_constraints := system.constraints.flatMap fun c => [c.1, c.2]
  if all_constraints.any (fun a => atoms.contains a) then
    Except.error
      "the intersection of system constraints and the specified atom set is not empty"
  else
    Except.ok ()

/-- Keyword-argument dictionary forwarded to an external call: an association
list of keyword names to (opaque) values. -/
abbrev KwDict := List (String × String)

/-- Python dict lookup `d[key]` on an association list (first match). -/
def kwLookup : KwDict → String → Option String
  | [], _ => none
  | (k, v) :: rest, key => if k = key then some v else kwLookup rest key

/-- State of a `MixedSystemConstructor` after a successful `__init__`: the
fields the constructor stores on `self`. -/
structure MixedSystemConstructor where
  system : OSystem
  topology : Topology
  nnpify_id : String
  implementation : String
  interpolate : Bool
  atom_indices : List Nat
  nnp_potential_str : String
  createMixedSystem_kwargs : KwDict
deriving Repr, DecidableEq

/-- Embedding of `MixedSystemConstructor.__init__`: store the arguments,
resolve the ML-treated atom indices with `get_atoms_from_resname`, then
validate them with `assert_no_residue_constraints`; either step raising
aborts construction with that error. -/
def MixedSystemConstructor.init (system : OSystem) (topology : Topology)
    (nnpify_id : String) (nnpify_type : String) (nnp_potential : String)
    (implementation : String) (interpolate : Bool) (kwargs : KwDict) :
    Except String MixedSystemConstructor :=
  match get_atoms_from_resname topology nnpify_id nnpify_type with
  | Except.error e => Except.error e
  | Except.ok atom_indices =>
    match assert_no_residue_constraints system atom_indices with
    | Except.error e => Except.error e
    | Except.ok () =>
        Except.ok
          { system := system
            topology := topology
            nnpify_id := nnpify_id
            implementation := implementation
            interpolate := interpolate
            atom_indices := atom_indices
            nnp_potential_str := nnp_potential
            createMixedSystem_kwargs := kwargs }

/-- Argument record of a call to the external
`MLPotential.createMixedSystem`: the mixed system the wrapper returns is
whatever the external library builds from exactly these arguments. -/
structure MixedSystemCall where
  potential : String
  topology : Topology
  system : OSystem
  atoms : List Nat
  implementation : String
  interpolate : Bool
  extra : KwDict
deriving Repr, DecidableEq

/-- Embedding of the `MixedSystemConstructor.mixed_system` property: the
external `createMixedSystem` call it performs, recorded as its argument
list.  The `implementation` keyword is the hard-coded string literal
`"nnpops"` from the source, not the stored `self._implementation`. -/
def MixedSystemConstructor.mixed_system (c : MixedSystemConstructor) :
    MixedSystemCall :=
  { potential := c.nnp_potential_str
    topology := c.topology
    system := c.system
    atoms := c.atom_indices
    implementation := "nnpops"
    interpolate := c.interpolate
    extra := c.createMixedSystem_kwargs }

/-- State of a `RepexConstructor` after `__init__`: the constructor merely
stores its arguments on `self`.  Opaque pass-through objects (positions,
temperature quantity, the MCMC-move class) are carried as strings; the
keyword dictionaries are association lists. -/
structure RepexConstructor where
  mixed_system : OSystem
  initial_positions : String
  n_states : Nat
  temperature : String
  intervals_per_lambda_window : Nat
  steps_per_equilibration_interval : Nat
  equilibration_protocol : String
  restart : Bool
  decouple : Bool
  storage_kwargs : KwDict
  mcmc_moves : String
  mcmc_moves_kwargs : KwDict
  replica_exchange_sampler_kwargs : KwDict
  extra_kwargs : KwDict
deriving Repr, DecidableEq

/-- An MCMC move produced by `self._mcmc_moves(**self._mcmc_moves_kwargs)`:
the external class named by `cls` applied to exactly `kwargs`. -/
structure MCMCMove where
  cls : String
  kwargs : KwDict
deriving Repr, DecidableEq

/-- Which of the two external setup entry points a fresh sampler is driven
through. -/
inductive SetupKind where
  | setup
  | setup_decouple
deriving Repr, DecidableEq

/-- Argument record of the external `_sampler.setup(...)` /
`_sampler.setup_decouple(...)` call performed for a fresh sampler. -/
structure SetupCall where
  kind : SetupKind
  n_states : Nat
  mixed_system : OSystem
  init_positions : String
  temperature : String
  storage_kwargs : KwDict
  setup_equilibration_intervals : Nat
  equilibration_protocol : String
  steps_per_setup_equilibration_interval : Nat
  extra : KwDict
deriving Repr, DecidableEq

/-- Result of `RepexConstructor.sampler`: either the sampler restored by
`NNPRepexSampler.from_storage(path)`, or a fresh
`NNPRepexSampler(mcmc_moves=move, **replica_exchange_sampler_kwargs)` that
was then set up through the recorded external call. -/
inductive SamplerResult where
  | fromStorage (path : String)
  | fresh (move : MCMCMove) (replicaExchangeKwargs : KwDict) (setupCall : SetupCall)
deriving Repr, DecidableEq

/-- Embedding of the `RepexConstructor.sampler` property.  `fileExists` is
whether `os.path.isfile(storage)` holds on entry; the returned boolean is
whether `os.remove(storage)` was called.  A missing `"storage"` key in the
storage dictionary is Python's `KeyError`. -/
def RepexConstructor.sampler (c : RepexConstructor) (fileExists : Bool) :
    Except String (Bool × SamplerResult) :=
  let move : MCMCMove := { cls := c.mcmc_moves, kwargs := c.mcmc_moves_kwargs }
  match kwLookup c.storage_kwargs "storage" with
  | none => Except.error "KeyError: storage"
  | some storagePath =>
    let deleted := fileExists && !c.restart
    let fileExistsAfter := fileExists && !deleted
    if fileExistsAfter && c.restart then
      Except.ok (deleted, SamplerResult.fromStorage storagePath)
    else
      let setupCall : SetupCall :=
        { kind := if !c.decouple then SetupKind.setup else SetupKind.setup_decouple
          n_states := c.n_states
          mixed_system := c.mixed_system
          init_positions := c.initial_positions
          temperature := c.temperature
          storage_kwargs := c.storage_kwargs
          setup_equilibration_intervals := c.intervals_per_lambda_window
          equilibration_protocol := c.equilibration_protocol
          steps_per_setup_equilibration_interval :=
            c.steps_per_equilibration_interval
          extra := c.extra_kwargs }
      Except.ok
        (deleted, SamplerResult.fresh move c.replica_exchange_sampler_kwargs setupCall)

/-- Concrete one-chain topology with a unique residue named `"LIG"` whose
atom indices are ascending. -/
def exTopology : Topology := ⟨[⟨[⟨"LIG", [3, 4, 5]⟩, ⟨"HOH", [6]⟩]⟩]⟩

/-- Concrete topology whose unique `"LIG"` residue lists its atom indices
out of order. -/
def exTopologyBad : Topology := ⟨[⟨[⟨"LIG", [1, 0]⟩]⟩]⟩

/-- Concrete system whose constraints avoid atoms 3,4,5. -/
def exSystem : OSystem := ⟨[(0, 1), (1, 2)]⟩

/-- Concrete system with a constraint touching atom 3. -/
def exSystemClash : OSystem := ⟨[(3, 7)]⟩

/-- Concrete `MixedSystemConstructor` state produced by a successful
`__init__` on `exSystem`/`exTopology` with implementation argument
`"torchani"`. -/
def exMixedCtor : MixedSystemConstructor :=
  { system := exSystem
    topology := exTopology
    nnpify_id := "LIG"
    implementation := "torchani"
    interpolate := true
    atom_indices := [3, 4, 5]
    nnp_potential_str := "ani2x"
    createMixedSystem_kwargs := [] }

/-- Concrete `RepexConstructor` (restart and decouple both unset), mirroring
the defaults of `__init__`. -/
def exRepex : RepexConstructor :=
  { mixed_system := exSystem
    initial_positions := "initial positions"
    n_states := 11
    temperature := "300 kelvin"
    intervals_per_lambda_window := 10
    steps_per_equilibration_interval := 100
    equilibration_protocol := "minimise"
    restart := false
    decouple := false
    storage_kwargs :=
      [("storage", "repex.nc"), ("checkpoint_interval", "10"),
        ("analysis_particle_indices", "None")]
    mcmc_moves := "LangevinDynamicsMove"
    mcmc_moves_kwargs :=
      [("timestep", "1.0 femtoseconds"), ("collision_rate", "1.0/picosecond"),
        ("n_steps", "1000"), ("reassign_velocities", "False")]
    replica_exchange_sampler_kwargs :=
      [("number_of_iterations", "5000"), ("online_analysis_interval", "10"),
        ("online_analysis_minimum_iterations", "10")]
    extra_kwargs := [] }

/-- Concrete constructor with only the restart flag set. -/
def exRepexRestart : RepexConstructor := { exRepex with restart := true }

/-- Concrete constructor with only the decouple flag set. -/
def exRepexDecouple : RepexConstructor := { exRepex with decouple := true }

/-- Concrete constructor with both flags set. -/
def exRepexDecoupleRestart : RepexConstructor :=
  { exRepex with decouple := true, restart := true }

/-- Extract which external setup entry point a sampler result was driven
through, when a fresh sampler was set up. -/
def setupKindOf : Except String (Bool × SamplerResult) → Option SetupKind
  | Except.ok (_, SamplerResult.fresh _ _ sc) => some sc.kind
  | _ => none

/-- Setup-call record that a fresh sampler built from constructor `c` is
driven through (matching the body of `RepexConstructor.sampler`). -/
def RepexConstructor.setupCallOf (c : RepexConstructor) : SetupCall :=
  { kind := if !c.decouple then SetupKind.setup else SetupKind.setup_decouple
    n_states := c.n_states
    mixed_system := c.mixed_system
    init_positions := c.initial_positions
    temperature := c.temperature
    storage_kwargs := c.storage_kwargs
    setup_equilibration_intervals := c.intervals_per_lambda_window
    equilibration_protocol := c.equilibration_protocol
    steps_per_setup_equilibration_interval := c.steps_per_equilibration_interval
    extra := c.extra_kwargs }

/-- Helper: a list filtered to a singleton has that element as its first
match. -/
theorem find?_of_filter_singleton {α} (p : α → Bool) :
    ∀ (l : List α) (r : α), l.filter p = [r] → l.find? p = some r := by
  intro l
  induction l with
  | nil => intro r h; simp at h
  | cons a l ih =>
      intro r h
      by_cases hpa : p a = true
      · rw [List.filter_cons_of_pos hpa] at h
        rw [List.find?_cons_of_pos _ hpa]
        simp only [List.cons.injEq] at h
        exact congrArg some h.1
      · rw [List.filter_cons_of_neg hpa] at h
        rw [List.find?_cons_of_neg _ hpa]
        exact ih r h

/-- Helper: a strictly increasing list passes the `isAscending` check. -/
theorem isAscending_of_pairwise_lt :
    ∀ l : List Nat, l.Pairwise (· < ·) → isAscending l = true
  | [], _ => rfl
  | [_], _ => rfl
  | a :: b :: rest, h => by
      have h' := List.pairwise_cons.mp h
      simp only [isAscending, Bool.and_eq_true, decide_eq_true_eq]
      exact ⟨Nat.le_of_lt (h'.1 b (by simp)),
        isAscending_of_pairwise_lt (b :: rest) h'.2⟩

/-- Helper: mdtraj chain selection yields ascending indices (it filters the
positions 0,1,2,... of the atoms in topology order). -/
theorem mdtrajSelectChain_ascending (t : Topology) (cid : Nat) :
    isAscending (mdtrajSelectChain t cid) = true := by
  apply isAscending_of_pairwise_lt
  exact (List.pairwise_lt_range _).filter _

/-- Helper: unfolding of `get_atoms_from_resname` on the `"resname"` mode. -/
theorem get_atoms_resname_eq (t : Topology) (nnpify_id : String) :
    get_atoms_from_resname t nnpify_id "resname" =
      (if ((t.residues.filter fun res => res.name = nnpify_id).map
            Residue.name).length = 1 then
        match t.residues.find? fun res => res.name = nnpify_id with
        | some residue =>
            if isAscending residue.atoms then Except.ok residue.atoms
            else Except.error "atom indices are not in ascending order"
        | none => Except.error "unreachable: a matching residue was counted"
      else
        Except.error "did not find exactly 1 residue with the requested name") :=
  rfl

/-- C1: `assert_no_residue_constraints(system, A)` raises an error iff some
atom appearing as an endpoint of a constraint of the system is a member of
`A`; when the intersection is empty it returns normally. -/
theorem assert_no_residue_constraints_error_iff_intersect
    (s : OSystem) (atoms : List Nat) :
    ((∃ e, assert_no_residue_constraints s atoms = Except.error e) ↔
      ∃ c ∈ s.constraints, c.1 ∈ atoms ∨ c.2 ∈ atoms)
    ∧ (assert_no_residue_constraints s atoms = Except.ok () ↔
      ¬ ∃ c ∈ s.constraints, c.1 ∈ atoms ∨ c.2 ∈ atoms) := by
  have key : ((s.constraints.flatMap fun c => [c.1, c.2]).any
      fun a => atoms.contains a) = true
      ↔ ∃ c ∈ s.constraints, c.1 ∈ atoms ∨ c.2 ∈ atoms := by
    constructor
    · intro hb
      obtain ⟨x, hx, hmem⟩ := List.any_eq_true.mp hb
      obtain ⟨c, hc, hcx⟩ := List.mem_flatMap.mp hx
      have hmem' : x ∈ atoms := List.elem_iff.mp hmem
      refine ⟨c, hc, ?_⟩
      rcases List.mem_cons.mp hcx with h | h
      · exact Or.inl (h ▸ hmem')
      · exact Or.inr (List.mem_singleton.mp h ▸ hmem')
    · rintro ⟨c, hc, h | h⟩
      · exact List.any_eq_true.mpr
          ⟨c.1, List.mem_flatMap.mpr ⟨c, hc, by simp⟩, List.elem_iff.mpr h⟩
      · exact List.any_eq_true.mpr
          ⟨c.2, List.mem_flatMap.mpr ⟨c, hc, by simp⟩, List.elem_iff.mpr h⟩
  simp only [assert_no_residue_constraints]
  by_cases hb : ((s.constraints.flatMap fun c => [c.1, c.2]).any
      fun a => atoms.contains a) = true
  · rw [if_pos hb]
    refine ⟨⟨fun _ => key.mp hb, fun _ => ⟨_, rfl⟩⟩, ?_, ?_⟩
    · intro h; exact absurd h (by simp)
    · intro h; exact absurd (key.mp hb) h
  · rw [if_neg hb]
    refine ⟨⟨?_, ?_⟩, fun _ h => hb (key.mpr h), fun _ => rfl⟩
    · rintro ⟨e, he⟩; exact absurd he (by simp)
    · intro h; exact absurd (key.mpr h) hb

/-- C10: for a `nnpify_type` other than `"chain"` and `"resname"`,
`get_atoms_from_resname` raises `ValueError` with a fixed message, and the
result does not depend on the topology. -/
theorem get_atoms_invalid_nnpify_type (t t' : Topology)
    (nnpify_id nnpify_type : String)
    (h1 : nnpify_type ≠ "chain") (h2 : nnpify_type ≠ "resname") :
    get_atoms_from_resname t nnpify_id nnpify_type
        = Except.error "Either chain or resname must be set"
    ∧ get_atoms_from_resname t nnpify_id nnpify_type
        = get_atoms_from_resname t' nnpify_id nnpify_type := by
  constructor
  · simp only [get_atoms_from_resname]
    rw [if_neg h1, if_neg h2]
  · simp only [get_atoms_from_resname]
    rw [if_neg h1, if_neg h2, if_neg h1, if_neg h2]

/-- C10 witness: at the concrete mode string `"atoms"` the function raises
the `ValueError`. -/
theorem get_atoms_invalid_nnpify_type_witness :
    ("atoms" : String) ≠ "chain" ∧ ("atoms" : String) ≠ "resname" ∧
    get_atoms_from_resname exTopology "LIG" "atoms"
        = Except.error "Either chain or resname must be set" :=
  ⟨by decide, by decide,
    (get_atoms_invalid_nnpify_type exTopology exTopologyBad "LIG" "atoms"
      (by decide) (by decide)).1⟩

/-- C3 counterexample: a topology with exactly one residue named `"LIG"`
whose atom indices are listed out of order makes `get_atoms_from_resname`
raise instead of returning that residue's atom indices, so "when exactly
one matches, it returns the atom indices of that residue" fails as
stated. -/
theorem get_atoms_resname_unique_match_can_still_fail :
    ((exTopologyBad.residues.filter fun res => res.name = "LIG").length = 1)
    ∧ get_atoms_from_resname exTopologyBad "LIG" "resname"
        = Except.error "atom indices are not in ascending order" :=
  ⟨rfl, rfl⟩

/-- C3 amended: resolution by residue name fails unless exactly one residue
has the requested name; when exactly one matches and its atom indices are
ascending it returns those indices, and when they are not ascending it
fails. -/
theorem get_atoms_resname_unique_ascending_ok (t : Topology)
    (nnpify_id : String) :
    ((t.residues.filter fun res => res.name = nnpify_id).length ≠ 1 →
      ∃ e, get_atoms_from_resname t nnpify_id "resname" = Except.error e)
    ∧ (∀ r, (t.residues.filter fun res => res.name = nnpify_id) = [r] →
        isAscending r.atoms = true →
        get_atoms_from_resname t nnpify_id "resname" = Except.ok r.atoms)
    ∧ (∀ r, (t.residues.filter fun res => res.name = nnpify_id) = [r] →
        isAscending r.atoms = false →
        ∃ e, get_atoms_from_resname t nnpify_id "resname" = Except.error e) := by
  refine ⟨?_, ?_, ?_⟩
  · intro hlen
    rw [get_atoms_resname_eq, if_neg (by simpa using hlen)]
    exact ⟨_, rfl⟩
  · intro r hfilter hasc
    have hfind := find?_of_filter_singleton _ _ _ hfilter
    rw [get_atoms_resname_eq, hfilter, hfind]
    simp [hasc]
  · intro r hfilter hasc
    have hfind := find?_of_filter_singleton _ _ _ hfilter
    rw [get_atoms_resname_eq, hfilter, hfind]
    simp [hasc]

/-- C3 witness: on a topology with a unique ascending `"LIG"` residue the
amended statement returns its atom indices. -/
theorem get_atoms_resname_unique_ascending_ok_witness :
    (exTopology.residues.filter fun res => res.name = "LIG")
        = [⟨"LIG", [3, 4, 5]⟩]
    ∧ isAscending [3, 4, 5] = true
    ∧ get_atoms_from_resname exTopology "LIG" "resname"
        = Except.ok [3, 4, 5] :=
  ⟨rfl, rfl,
    (get_atoms_resname_unique_ascending_ok exTopology "LIG").2.1
      ⟨"LIG", [3, 4, 5]⟩ rfl rfl⟩

/-- C4: whenever `get_atoms_from_resname` returns (either resolution mode),
the returned atom indices are in ascending order; by contraposition, when
the resolved indices are not ascending the function does not return. -/
theorem get_atoms_returns_ascending (t : Topology)
    (nnpify_id nnpify_type : String) (l : List Nat)
    (h : get_atoms_from_resname t nnpify_id nnpify_type = Except.ok l) :
    isAscending l = true := by
  simp only [get_atoms_from_resname] at h
  split at h
  · split at h
    · injection h with h'
      rw [← h']
      exact mdtrajSelectChain_ascending _ _
    · exact absurd h (by simp)
  · split at h
    · split at h
      · split at h
        · split at h
          · injection h with h'
            rw [← h']
            assumption
          · exact absurd h (by simp)
        · exact absurd h (by simp)
      · exact absurd h (by simp)
    · exact absurd h (by simp)

/-- C4 witness: the concrete resolution on `exTopology` returns `[3, 4, 5]`,
which is ascending. -/
theorem get_atoms_returns_ascending_witness :
    get_atoms_from_resname exTopology "LIG" "resname" = Except.ok [3, 4, 5]
    ∧ isAscending [3, 4, 5] = true :=
  ⟨rfl, get_atoms_returns_ascending exTopology "LIG" "resname" [3, 4, 5] rfl⟩

/-- C6: a `MixedSystemConstructor` stores the `implementation` constructor
argument, but its `mixed_system` property always calls the external
`createMixedSystem` with `implementation="nnpops"`, independently of the
stored value. -/
theorem mixed_system_implementation_always_nnpops
    (system : OSystem) (topology : Topology)
    (nnpify_id nnpify_type nnp_potential implementation : String)
    (interpolate : Bool) (kwargs : KwDict) (c : MixedSystemConstructor)
    (h : MixedSystemConstructor.init system topology nnpify_id nnpify_type
      nnp_potential implementation interpolate kwargs = Except.ok c) :
    c.implementation = implementation
    ∧ c.mixed_system.implementation = "nnpops"
    ∧ ∀ impl', ({ c with implementation := impl' }).mixed_system
        = c.mixed_system := by
  simp only [MixedSystemConstructor.init] at h
  split at h
  · exact absurd h (by simp)
  · split at h
    · exact absurd h (by simp)
    · injection h with h'
      subst h'
      exact ⟨rfl, rfl, fun _ => rfl⟩

/-- C6 witness: concrete successful construction with implementation
argument `"torchani"`; the external call still receives `"nnpops"`. -/
theorem mixed_system_implementation_always_nnpops_witness :
    MixedSystemConstructor.init exSystem exTopology "LIG" "resname" "ani2x"
        "torchani" true [] = Except.ok exMixedCtor
    ∧ exMixedCtor.implementation = "torchani"
    ∧ exMixedCtor.mixed_system.implementation = "nnpops" :=
  ⟨rfl,
    (mixed_system_implementation_always_nnpops exSystem exTopology "LIG"
      "resname" "ani2x" "torchani" true [] exMixedCtor rfl).1,
    (mixed_system_implementation_always_nnpops exSystem exTopology "LIG"
      "resname" "ani2x" "torchani" true [] exMixedCtor rfl).2.1⟩

/-- C8: construction identifies the ML-treated atoms first and validates
them against the system's constraints; if that validation raises, `__init__`
aborts with the error, so no constructor state exists and the
`createMixedSystem` call (reachable only through `mixed_system` on a
constructed object) is never made; on success the constructed state holds
exactly the resolved, validated atom indices. -/
theorem init_validates_before_mixed_system
    (system : OSystem) (topology : Topology)
    (nnpify_id nnpify_type nnp_potential implementation : String)
    (interpolate : Bool) (kwargs : KwDict) :
    (∀ atoms e,
      get_atoms_from_resname topology nnpify_id nnpify_type = Except.ok atoms →
      assert_no_residue_constraints system atoms = Except.error e →
      MixedSystemConstructor.init system topology nnpify_id nnpify_type
        nnp_potential implementation interpolate kwargs = Except.error e)
    ∧ (∀ c,
      MixedSystemConstructor.init system topology nnpify_id nnpify_type
        nnp_potential implementation interpolate kwargs = Except.ok c →
      get_atoms_from_resname topology nnpify_id nnpify_type
          = Except.ok c.atom_indices
      ∧ assert_no_residue_constraints system c.atom_indices
          = Except.ok ()) := by
  constructor
  · intro atoms e hatoms hval
    simp only [MixedSystemConstructor.init, hatoms, hval]
  · intro c h
    simp only [MixedSystemConstructor.init] at h
    split at h
    · exact absurd h (by simp)
    next atoms heq =>
      split at h
      · exact absurd h (by simp)
      next heq2 =>
        injection h with h'
        subst h'
        exact ⟨heq, heq2⟩

/-- C8 witness: with a constraint touching atom 3 the validation fails and
construction aborts with that error. -/
theorem init_validates_before_mixed_system_witness :
    get_atoms_from_resname exTopology "LIG" "resname" = Except.ok [3, 4, 5]
    ∧ assert_no_residue_constraints exSystemClash [3, 4, 5] = Except.error
        "the intersection of system constraints and the specified atom set is not empty"
    ∧ MixedSystemConstructor.init exSystemClash exTopology "LIG" "resname"
        "ani2x" "nnpops" true [] = Except.error
        "the intersection of system constraints and the specified atom set is not empty" :=
  ⟨rfl, rfl,
    (init_validates_before_mixed_system exSystemClash exTopology "LIG"
      "resname" "ani2x" "nnpops" true []).1 [3, 4, 5] _ rfl rfl⟩

/-- C2: when the storage file exists, the restart flag decides: set, the
sampler is restored via `from_storage` from that file (nothing deleted);
unset, the file is deleted and a fresh sampler is constructed and set
up. -/
theorem sampler_restart_flag_semantics (c : RepexConstructor) (p : String)
    (hp : kwLookup c.storage_kwargs "storage" = some p) :
    (c.restart = true →
      c.sampler true = Except.ok (false, SamplerResult.fromStorage p))
    ∧ (c.restart = false →
      c.sampler true = Except.ok (true,
        SamplerResult.fresh ⟨c.mcmc_moves, c.mcmc_moves_kwargs⟩
          c.replica_exchange_sampler_kwargs c.setupCallOf)) := by
  constructor
  · intro hr
    simp [RepexConstructor.sampler, hp, hr]
  · intro hr
    simp [RepexConstructor.sampler, RepexConstructor.setupCallOf, hp, hr]

/-- C2 witness: concrete constructors with the storage file present, one per
flag value. -/
theorem sampler_restart_flag_semantics_witness :
    exRepexRestart.sampler true
        = Except.ok (false, SamplerResult.fromStorage "repex.nc")
    ∧ exRepex.sampler true = Except.ok (true,
        SamplerResult.fresh ⟨exRepex.mcmc_moves, exRepex.mcmc_moves_kwargs⟩
          exRepex.replica_exchange_sampler_kwargs exRepex.setupCallOf) :=
  ⟨(sampler_restart_flag_semantics exRepexRestart "repex.nc" rfl).1 rfl,
    (sampler_restart_flag_semantics exRepex "repex.nc" rfl).2 rfl⟩

/-- C5 counterexample: with the checkpoint file absent, flipping the restart
flag does not change which external setup call is dispatched
(`setup_decouple` both times), while flipping the decouple flag does; the
dispatch between `setup` and `setup_decouple` therefore does not depend on
the restart flag. -/
theorem sampler_dispatch_ignores_restart_flag :
    setupKindOf (exRepexDecouple.sampler false)
        = some SetupKind.setup_decouple
    ∧ setupKindOf (exRepexDecoupleRestart.sampler false)
        = some SetupKind.setup_decouple
    ∧ setupKindOf (exRepex.sampler false) = some SetupKind.setup :=
  ⟨rfl, rfl, rfl⟩

/-- C5 amended: after the checkpoint-file check, whenever a fresh sampler is
built, the builder dispatches to `setup` or `setup_decouple` depending on
the decouple flag (the restart flag, with the file check, instead decides
between restoring from storage and building fresh). -/
theorem sampler_dispatch_depends_on_decouple (c : RepexConstructor)
    (fe deleted : Bool) (mv : MCMCMove) (k : KwDict) (sc : SetupCall)
    (h : c.sampler fe = Except.ok (deleted, SamplerResult.fresh mv k sc)) :
    sc.kind = if c.decouple then SetupKind.setup_decouple
      else SetupKind.setup := by
  simp only [RepexConstructor.sampler] at h
  split at h
  · exact absurd h (by simp)
  · split at h
    · exact absurd h (by simp)
    · simp only [Except.ok.injEq, Prod.mk.injEq,
        SamplerResult.fresh.injEq] at h
      obtain ⟨-, -, -, hsc⟩ := h
      rw [← hsc]
      cases hd : c.decouple <;> simp [hd]

/-- C5 witness for the amended statement: the concrete decoupled
constructor dispatches to `setup_decouple`. -/
theorem sampler_dispatch_depends_on_decouple_witness :
    exRepexDecouple.sampler false = Except.ok (false,
      SamplerResult.fresh
        ⟨exRepexDecouple.mcmc_moves, exRepexDecouple.mcmc_moves_kwargs⟩
        exRepexDecouple.replica_exchange_sampler_kwargs
        exRepexDecouple.setupCallOf)
    ∧ exRepexDecouple.setupCallOf.kind = SetupKind.setup_decouple :=
  ⟨rfl,
    sampler_dispatch_depends_on_decouple exRepexDecouple false false
      ⟨exRepexDecouple.mcmc_moves, exRepexDecouple.mcmc_moves_kwargs⟩
      exRepexDecouple.replica_exchange_sampler_kwargs
      exRepexDecouple.setupCallOf rfl⟩

/-- C7: whenever a fresh sampler is built, the configuration dictionaries
given at construction are forwarded to the external calls unmodified: the
MCMC move receives exactly `mcmc_moves_kwargs`, the sampler constructor
exactly `replica_exchange_sampler_kwargs`, and the setup call exactly
`storage_kwargs` and the extra kwargs. -/
theorem sampler_forwards_kwargs_verbatim (c : RepexConstructor)
    (fe deleted : Bool) (mv : MCMCMove) (k : KwDict) (sc : SetupCall)
    (h : c.sampler fe = Except.ok (deleted, SamplerResult.fresh mv k sc)) :
    mv.kwargs = c.mcmc_moves_kwargs
    ∧ k = c.replica_exchange_sampler_kwargs
    ∧ sc.storage_kwargs = c.storage_kwargs
    ∧ sc.extra = c.extra_kwargs := by
  simp only [RepexConstructor.sampler] at h
  split at h
  · exact absurd h (by simp)
  · split at h
    · exact absurd h (by simp)
    · simp only [Except.ok.injEq, Prod.mk.injEq,
        SamplerResult.fresh.injEq] at h
      obtain ⟨-, hmv, hk, hsc⟩ := h
      rw [← hmv, ← hk, ← hsc]
      exact ⟨rfl, rfl, rfl, rfl⟩

/-- C7 witness: concrete fresh construction forwards the concrete
dictionaries unchanged. -/
theorem sampler_forwards_kwargs_verbatim_witness :
    exRepex.sampler false = Except.ok (false,
      SamplerResult.fresh ⟨exRepex.mcmc_moves, exRepex.mcmc_moves_kwargs⟩
        exRepex.replica_exchange_sampler_kwargs exRepex.setupCallOf)
    ∧ exRepex.setupCallOf.storage_kwargs = exRepex.storage_kwargs :=
  ⟨rfl,
    (sampler_forwards_kwargs_verbatim exRepex false false
      ⟨exRepex.mcmc_moves, exRepex.mcmc_moves_kwargs⟩
      exRepex.replica_exchange_sampler_kwargs exRepex.setupCallOf
      rfl).2.2.1⟩

/-- C9: when the restart flag is set but the storage file does not exist,
the sampler silently builds and sets up a fresh sampler: no error is
raised, nothing is deleted, and no restore from storage is attempted. -/
theorem sampler_restart_without_file_fresh (c : RepexConstructor)
    (p : String) (hp : kwLookup c.storage_kwargs "storage" = some p)
    (hr : c.restart = true) :
    c.sampler false = Except.ok (false,
      SamplerResult.fresh ⟨c.mcmc_moves, c.mcmc_moves_kwargs⟩
        c.replica_exchange_sampler_kwargs c.setupCallOf) := by
  simp [RepexConstructor.sampler, RepexConstructor.setupCallOf, hp, hr]

/-- C9 witness: the concrete restart-flagged constructor with no file on
disk builds a fresh sampler. -/
theorem sampler_restart_without_file_fresh_witness :
    exRepexRestart.sampler false = Except.ok (false,
      SamplerResult.fresh
        ⟨exRepexRestart.mcmc_moves, exRepexRestart.mcmc_moves_kwargs⟩
        exRepexRestart.replica_exchange_sampler_kwargs
        exRepexRestart.setupCallOf) :=
  sampler_restart_without_file_fresh exRepexRestart "repex.nc" rfl rfl

end Repex
